import Mathlib

/-!
Verification of the turtle_adventure entity-simulation engine.

This file gives a shallow embedding, in Lean 4, of the simulation logic of
turtle_adventure.py: the Home containment test, the Enemy hit test, the
Player waypoint movement, the game-over transitions, and the enemy state
machines (RandomWalk, Chasing, Fencing, Thief).

Coordinates and speeds are modelled as exact rationals.  Python's
math.sqrt (used in the normalize-and-step pursuit code and by turtle's
distance) returns an irrational value in general, so every definition that
needs it is parametrised by a square-root function sq on the rationals;
theorems assume of sq only what they need at the inputs they touch, and
concrete instantiations use sqw below, a finite table that agrees with the
real square root on every input those instantiations reach.  Wall-clock
time (time.time_ns) is passed in as a rational nanosecond count.  The
drawing surface is modelled by its width and height (canvas.winfo_width /
canvas.winfo_height), and the player position enters enemy updates as a
pair of rationals.
-/

/-- The Home game element: a square goal region of side length size
centered at position (x, y).  (Embeds class Home of turtle_adventure.py.) -/
structure Home where
  x : ℚ
  y : ℚ
  size : ℚ
deriving DecidableEq

/-- Home.contains from the source:
x1, x2 = self.x - self.size/2, self.x + self.size/2;
y1, y2 = self.y - self.size/2, self.y + self.size/2;
return x1 <= x <= x2 and y1 <= y <= y2. -/
def Home.contains (h : Home) (x y : ℚ) : Bool :=
  (decide (h.x - h.size/2 ≤ x) && decide (x ≤ h.x + h.size/2)) &&
  (decide (h.y - h.size/2 ≤ y) && decide (y ≤ h.y + h.size/2))

/-- Enemy.hits_player from the source, abstracted over the enemy's center
(ex, ey) and size, and the player position (px, py):
(self.x - self.size/2 < player.x < self.x + self.size/2) and
(self.y - self.size/2 < player.y < self.y + self.size/2). -/
def Enemy.hits_player (ex ey size px py : ℚ) : Bool :=
  (decide (ex - size/2 < px) && decide (px < ex + size/2)) &&
  (decide (ey - size/2 < py) && decide (py < ey + size/2))

/-- The waypoint the player moves toward (class Waypoint): a position and
an active flag. -/
structure Waypoint where
  x : ℚ
  y : ℚ
  active : Bool
deriving DecidableEq

/-- The player (class Player): a position (delegated to the turtle in the
source) and a per-tick movement speed. -/
structure Player where
  x : ℚ
  y : ℚ
  speed : ℚ
deriving DecidableEq

/-- The slice of TurtleAdventureGame state touched by Player.update and by
the game-over transitions: the player, home, waypoint, whether the tick
loop is running (gamelib's Game), and the list of text items created on
the canvas (each game_over call appends one banner string). -/
structure TAGame where
  player : Player
  home : Home
  waypoint : Waypoint
  running : Bool
  banners : List String
deriving DecidableEq

/-- Modelled from the spec: gamelib.Game.stop (the host framework's
tick-loop halt, not part of src/) - it halts ticking, i.e. makes the game
not running, and is safe to call repeatedly. -/
def Game.stop (g : TAGame) : TAGame :=
  { g with running := false }

/-- TurtleAdventureGame.game_over_win from the source: self.stop(), then
canvas.create_text(... text="You Win" ...), which creates a new text item
on the canvas on every call. -/
def TAGame.game_over_win (g : TAGame) : TAGame :=
  let g1 := Game.stop g
  { g1 with banners := g1.banners ++ ["You Win"] }

/-- TurtleAdventureGame.game_over_lose from the source: self.stop(), then
canvas.create_text(... text="You Lose" ...), creating a new text item on
every call. -/
def TAGame.game_over_lose (g : TAGame) : TAGame :=
  let g1 := Game.stop g
  { g1 with banners := g1.banners ++ ["You Lose"] }

/-- The waypoint block of Player.update from the source (lines 177-183):
if the waypoint is active, the turtle turns toward the waypoint
(turtle.towards is atan2 and yields heading 0, i.e. the positive x
direction, when the two points coincide) and moves forward by speed; if
the distance to the waypoint measured after the move is less than speed,
the waypoint is deactivated.  Player.update runs this after the home
check, which has no early return. -/
def Player.waypointMove (sq : ℚ → ℚ) (g1 : TAGame) : TAGame :=
  if g1.waypoint.active then
    let dx := g1.waypoint.x - g1.player.x
    let dy := g1.waypoint.y - g1.player.y
    let d := sq (dx^2 + dy^2)
    let nx := if d = 0 then g1.player.x + g1.player.speed
              else g1.player.x + dx / d * g1.player.speed
    let ny := if d = 0 then g1.player.y
              else g1.player.y + dy / d * g1.player.speed
    let post := sq ((g1.waypoint.x - nx)^2 + (g1.waypoint.y - ny)^2)
    let g2 := { g1 with player := { g1.player with x := nx, y := ny } }
    if post < g2.player.speed then
      { g2 with waypoint := { g2.waypoint with active := false } }
    else g2
  else g1

/-- Player.update itself: the home check first (lines 174-176 of the
source), then the waypoint block (lines 177-183). -/
def Player.update (sq : ℚ → ℚ) (g : TAGame) : TAGame :=
  Player.waypointMove sq
    (if Home.contains g.home g.player.x g.player.y
     then TAGame.game_over_win g else g)

/-- A RandomWalkEnemy: position, bounding-box size, and the per-axis
velocities speed_x, speed_y (both initialised to 3 in the source). -/
structure RandomWalk where
  x : ℚ
  y : ℚ
  size : ℚ
  speed_x : ℚ
  speed_y : ℚ
deriving DecidableEq

/-- RandomWalkEnemy.update from the source: add the velocities to the
position; on each axis, if the new coordinate is below 0 or beyond the
surface extent, negate that axis's velocity; finally run the hit test
(whose true result makes the game call game_over_lose - returned here as
the Bool component). -/
def RandomWalkEnemy.update (width height px py : ℚ) (r : RandomWalk) :
    RandomWalk × Bool :=
  let x := r.x + r.speed_x
  let y := r.y + r.speed_y
  let sx := if x < 0 ∨ x > width then -r.speed_x else r.speed_x
  let sy := if y < 0 ∨ y > height then -r.speed_y else r.speed_y
  let r1 : RandomWalk := { r with x := x, y := y, speed_x := sx, speed_y := sy }
  (r1, Enemy.hits_player r1.x r1.y r1.size px py)

/-- A ChasingEnemy: position, bounding-box size, and pursuit speed
(initialised to 2 in the source). -/
structure Chasing where
  x : ℚ
  y : ℚ
  size : ℚ
  speed : ℚ
deriving DecidableEq

/-- ChasingEnemy.update from the source: dis_x, dis_y are the vector to
the player, distance = sqrt(dis_x**2 + dis_y**2), and the position
advances by (dis_x/distance)*speed, (dis_y/distance)*speed.  When
distance is 0, Python's division raises ZeroDivisionError, so the update
does not complete: modelled as none.  Otherwise the hit test runs after
the move (Bool component). -/
def ChasingEnemy.update (sq : ℚ → ℚ) (px py : ℚ) (c : Chasing) :
    Option (Chasing × Bool) :=
  let dx := px - c.x
  let dy := py - c.y
  let distance := sq (dx^2 + dy^2)
  if distance = 0 then none
  else
    let c1 : Chasing := { c with x := c.x + dx / distance * c.speed,
                                 y := c.y + dy / distance * c.speed }
    some (c1, Enemy.hits_player c1.x c1.y c1.size px py)

/-- The four behaviour states of a FencingEnemy, named after the bound
methods the source stores in self.__state. -/
inductive FState where
  | move_down
  | move_right
  | move_up
  | move_left
deriving DecidableEq

/-- The fixed cyclic successor on FencingEnemy states, in the order the
source's transitions follow: move_down, move_right, move_up, move_left,
and back to move_down. -/
def FState.next : FState → FState
  | FState.move_down => FState.move_right
  | FState.move_right => FState.move_up
  | FState.move_up => FState.move_left
  | FState.move_left => FState.move_down

/-- A FencingEnemy: position, size, speed, the four patrol boundaries,
and the current behaviour state. -/
structure Fencing where
  x : ℚ
  y : ℚ
  size : ℚ
  speed : ℚ
  x_left : ℚ
  x_right : ℚ
  y_up : ℚ
  y_down : ℚ
  state : FState
deriving DecidableEq

/-- FencingEnemy.__init__ from the source: speed is 2, x_right and y_down
mirror the supplied offsets through home's center
(x_right = 2*home.x - x_left, y_down = 2*home.y - y_up), and the starting
state is move_down.  The position is set by the caller after
construction, so it is a parameter here. -/
def FencingEnemy.init (home : Home) (size x y x_left y_up : ℚ) : Fencing :=
  { x := x, y := y, size := size, speed := 2,
    x_left := x_left, x_right := 2 * home.x - x_left,
    y_up := y_up, y_down := 2 * home.y - y_up,
    state := FState.move_down }

/-- FencingEnemy.move_left from the source: x decreases by speed; when x
drops below x_left the state becomes move_down. -/
def FencingEnemy.move_left (f : Fencing) : Fencing :=
  let x := f.x - f.speed
  if x < f.x_left then { f with x := x, state := FState.move_down }
  else { f with x := x }

/-- FencingEnemy.move_down from the source: y increases by speed; when y
exceeds y_down the state becomes move_right. -/
def FencingEnemy.move_down (f : Fencing) : Fencing :=
  let y := f.y + f.speed
  if y > f.y_down then { f with y := y, state := FState.move_right }
  else { f with y := y }

/-- FencingEnemy.move_right from the source: x increases by speed; when x
exceeds x_right the state becomes move_up. -/
def FencingEnemy.move_right (f : Fencing) : Fencing :=
  let x := f.x + f.speed
  if x > f.x_right then { f with x := x, state := FState.move_up }
  else { f with x := x }

/-- FencingEnemy.move_up from the source: y decreases by speed; when y
drops below y_up the state becomes move_left. -/
def FencingEnemy.move_up (f : Fencing) : Fencing :=
  let y := f.y - f.speed
  if y < f.y_up then { f with y := y, state := FState.move_left }
  else { f with y := y }

/-- The self.__state() dispatch inside FencingEnemy.update: run the bound
method named by the current state. -/
def FencingEnemy.stepState (f : Fencing) : Fencing :=
  match f.state with
  | FState.move_down => FencingEnemy.move_down f
  | FState.move_right => FencingEnemy.move_right f
  | FState.move_up => FencingEnemy.move_up f
  | FState.move_left => FencingEnemy.move_left f

/-- FencingEnemy.update from the source: dispatch on the current state,
then run the hit test (Bool component). -/
def FencingEnemy.update (px py : ℚ) (f : Fencing) : Fencing × Bool :=
  let f1 := FencingEnemy.stepState f
  (f1, Enemy.hits_player f1.x f1.y f1.size px py)

/-- The boundary-crossing condition of the claim, per state, expressed on
the post-move coordinate: the state's boundary coordinate is crossed when
the coordinate moved along the state's axis passes strictly beyond the
stored boundary for that state. -/
def FencingEnemy.boundaryCrossed (f : Fencing) : Prop :=
  match f.state with
  | FState.move_down => f.y + f.speed > f.y_down
  | FState.move_right => f.x + f.speed > f.x_right
  | FState.move_up => f.y - f.speed < f.y_up
  | FState.move_left => f.x - f.speed < f.x_left

/-- The four behaviour states of a ThiefEnemy, named after the bound
methods the source stores in self.__state. -/
inductive TState where
  | move_random
  | find_home
  | move_home
  | place_home
deriving DecidableEq

/-- A ThiefEnemy: position, size, the snapshot home_x/home_y of Home's
position taken at construction, the pursuit speed, the per-axis walk
velocities, the last timer-reset timestamp (nanoseconds), and the current
behaviour state. -/
structure Thief where
  x : ℚ
  y : ℚ
  size : ℚ
  home_x : ℚ
  home_y : ℚ
  speed : ℚ
  speed_x : ℚ
  speed_y : ℚ
  start_time : ℚ
  state : TState
deriving DecidableEq

/-- ThiefEnemy.__init__ from the source: home_x, home_y record
game.home's position at construction time; speed = 2, speed_x = 2,
speed_y = 2; start_time = time.time_ns(); initial state move_random.
The position is set by the caller after construction, so it is a
parameter here. -/
def ThiefEnemy.init (home : Home) (size now x y : ℚ) : Thief :=
  { x := x, y := y, size := size,
    home_x := home.x, home_y := home.y,
    speed := 2, speed_x := 2, speed_y := 2,
    start_time := now, state := TState.move_random }

/-- ThiefEnemy.find_home from the source: pursuit toward game.home's
current position (normalize-and-step; zero distance raises
ZeroDivisionError in Python, modelled as none); if the new position is
within 3 units of home on both axes, set speed to 4 (the source assigns
it twice), reset the timer to now, and transition to move_home. -/
def ThiefEnemy.find_home (sq : ℚ → ℚ) (now : ℚ) (home : Home) (t : Thief) :
    Option Thief :=
  let dx := home.x - t.x
  let dy := home.y - t.y
  let distance := sq (dx^2 + dy^2)
  if distance = 0 then none
  else
    let x := t.x + dx / distance * t.speed
    let y := t.y + dy / distance * t.speed
    if home.x - 3 ≤ x ∧ x ≤ home.x + 3 ∧ home.y - 3 ≤ y ∧ y ≤ home.y + 3 then
      some { t with x := x, y := y, speed := 4,
                    start_time := now, state := TState.move_home }
    else
      some { t with x := x, y := y }

/-- ThiefEnemy.move_home from the source: first overwrite game.home's
position with the enemy's own position, then elastic-bounce walk (as in
RandomWalkEnemy.update); if more than 3 seconds have elapsed since
start_time, set speed_x and speed_y back to 2, reset the timer, and
transition to place_home.  Returns the new thief together with the new
home. -/
def ThiefEnemy.move_home (width height now : ℚ) (t : Thief) (home : Home) :
    Thief × Home :=
  let home1 : Home := { home with x := t.x, y := t.y }
  let x := t.x + t.speed_x
  let y := t.y + t.speed_y
  let sx := if x < 0 ∨ x > width then -t.speed_x else t.speed_x
  let sy := if y < 0 ∨ y > height then -t.speed_y else t.speed_y
  if (now - t.start_time) / 1000000000 > 3 then
    ({ t with x := x, y := y, speed_x := 2, speed_y := 2,
              start_time := now, state := TState.place_home }, home1)
  else
    ({ t with x := x, y := y, speed_x := sx, speed_y := sy }, home1)

/-- ThiefEnemy.place_home from the source: first overwrite game.home's
position with the enemy's own position, then pursue the snapshot
(home_x, home_y) recorded at construction (normalize-and-step; zero
distance raises ZeroDivisionError in Python: the thief component is none,
while the home overwrite has already happened); if the new position is
within 3 units of the snapshot on both axes, set speed to 2 (the source
assigns it twice), reset the timer, and transition to move_random. -/
def ThiefEnemy.place_home (sq : ℚ → ℚ) (now : ℚ) (t : Thief) (home : Home) :
    Option Thief × Home :=
  let home1 : Home := { home with x := t.x, y := t.y }
  let dx := t.home_x - t.x
  let dy := t.home_y - t.y
  let distance := sq (dx^2 + dy^2)
  if distance = 0 then (none, home1)
  else
    let x := t.x + dx / distance * t.speed
    let y := t.y + dy / distance * t.speed
    if t.home_x - 3 ≤ x ∧ x ≤ t.home_x + 3 ∧ t.home_y - 3 ≤ y ∧ y ≤ t.home_y + 3 then
      (some { t with x := x, y := y, speed := 2,
                     start_time := now, state := TState.move_random }, home1)
    else
      (some { t with x := x, y := y }, home1)

/-- ThiefEnemy.move_random from the source: elastic-bounce walk (as in
RandomWalkEnemy.update); if more than 6.5 seconds have elapsed since
start_time, set speed_x and speed_y to 4, reset the timer, and transition
to find_home. -/
def ThiefEnemy.move_random (width height now : ℚ) (t : Thief) : Thief :=
  let x := t.x + t.speed_x
  let y := t.y + t.speed_y
  let sx := if x < 0 ∨ x > width then -t.speed_x else t.speed_x
  let sy := if y < 0 ∨ y > height then -t.speed_y else t.speed_y
  if (now - t.start_time) / 1000000000 > 13/2 then
    { t with x := x, y := y, speed_x := 4, speed_y := 4,
             start_time := now, state := TState.find_home }
  else
    { t with x := x, y := y, speed_x := sx, speed_y := sy }

/-- ThiefEnemy.update from the source: dispatch self.__state() (each
state function returns the new thief, or none where Python would raise,
and the possibly overwritten home), then run the hit test on the result
(Bool component; false when the state function did not complete). -/
def ThiefEnemy.update (sq : ℚ → ℚ) (width height now : ℚ) (t : Thief)
    (home : Home) (px py : ℚ) : (Option Thief × Home) × Bool :=
  let step : Option Thief × Home :=
    match t.state with
    | TState.move_random => (some (ThiefEnemy.move_random width height now t), home)
    | TState.find_home => (ThiefEnemy.find_home sq now home t, home)
    | TState.move_home =>
        let p := ThiefEnemy.move_home width height now t home
        (some p.1, p.2)
    | TState.place_home => ThiefEnemy.place_home sq now t home
  match step with
  | (none, home1) => ((none, home1), false)
  | (some t1, home1) =>
      ((some t1, home1), Enemy.hits_player t1.x t1.y t1.size px py)

/-- A concrete square-root oracle used to instantiate the sq parameter in
witnesses and counterexamples.  It agrees with the real square root on
every input those concrete evaluations reach (0, 9, 25, 64); elsewhere it
is an arbitrary positive value, never consulted by them. -/
def sqw (q : ℚ) : ℚ :=
  if q = 0 then 0
  else if q = 9 then 3
  else if q = 25 then 5
  else if q = 64 then 8
  else 1

/-- Concrete game state used by the C1 counterexample: the player sits at
(0, 0) inside home's square, and the waypoint is active at (5, 0). -/
def gC1 : TAGame :=
  { player := ⟨0, 0, 5⟩, home := ⟨0, 0, 20⟩,
    waypoint := ⟨5, 0, true⟩, running := true, banners := [] }

/-- Concrete game state used by the C1 witness: the player sits inside
home's square and the waypoint is inactive. -/
def gC1w : TAGame :=
  { player := ⟨0, 0, 5⟩, home := ⟨0, 0, 20⟩,
    waypoint := ⟨5, 0, false⟩, running := true, banners := [] }

/-- Concrete game state used by the C2 counterexample: the player is away
from home, and the active waypoint is at distance exactly speed. -/
def gC2 : TAGame :=
  { player := ⟨0, 0, 5⟩, home := ⟨100, 100, 20⟩,
    waypoint := ⟨5, 0, true⟩, running := true, banners := [] }

/-- Concrete game state used by the C2 witness: the player is away from
home, and the active waypoint is at distance 8 with speed 5. -/
def gC2w : TAGame :=
  { player := ⟨0, 0, 5⟩, home := ⟨100, 100, 20⟩,
    waypoint := ⟨8, 0, true⟩, running := true, banners := [] }

/-- Concrete game state used by the C4 theorem: a game in its initial
running state with no banner drawn yet. -/
def gC4 : TAGame :=
  { player := ⟨50, 300, 5⟩, home := ⟨700, 300, 20⟩,
    waypoint := ⟨0, 0, false⟩, running := true, banners := [] }

/-- Concrete home used by thief-related witnesses. -/
def homeW : Home := ⟨700, 300, 20⟩

/-- Concrete thief in state move_home used by the C8 counterexample: it
is at (10, 10) carrying home, with walk velocities (4, 4). -/
def tC8 : Thief := ⟨10, 10, 30, 700, 300, 4, 4, 4, 0, TState.move_home⟩

/-- Concrete thief in state move_random used by the C10 witness. -/
def tW : Thief := ⟨100, 100, 30, 700, 300, 2, 2, 2, 0, TState.move_random⟩

/-- Concrete random-walk enemy used by the C9 witness. -/
def rW : RandomWalk := ⟨100, 100, 25, 3, 3⟩

/-- Concrete thief in state move_random used by the C9 witness, with its
timer freshly reset. -/
def tW9 : Thief := ⟨100, 100, 30, 700, 300, 2, 2, 2, 0, TState.move_random⟩

/-- Concrete chasing enemy used by the C3 witness: it sits exactly on the
player position used there. -/
def cW : Chasing := ⟨400, 300, 20, 2⟩

/-- Concrete thief in state find_home used by the C3 witness: it sits
exactly on homeW's position. -/
def tW3 : Thief := ⟨700, 300, 30, 650, 250, 4, 2, 2, 0, TState.find_home⟩

/-- Concrete thief in state place_home used by the C3 witness: it sits
exactly on its recorded snapshot position. -/
def uW3 : Thief := ⟨650, 250, 30, 650, 250, 2, 2, 2, 0, TState.place_home⟩

/-- Claim C5: Home.contains h x y is true exactly when x lies within
[h.x - size/2, h.x + size/2] and y lies within
[h.y - size/2, h.y + size/2], with all four bounds inclusive. -/
theorem home_contains_iff_inclusive_bounds (h : Home) (x y : ℚ) :
    Home.contains h x y = true ↔
      ((h.x - h.size/2 ≤ x ∧ x ≤ h.x + h.size/2) ∧
       (h.y - h.size/2 ≤ y ∧ y ≤ h.y + h.size/2)) := by
  simp [Home.contains]

/-- Claim C6: Enemy.hits_player is true exactly when the player position
(px, py) lies strictly inside the size-by-size box centered at (ex, ey);
points exactly on the edge are not hits because all four bounds are
strict. -/
theorem hits_player_iff_strict_bounds (ex ey size px py : ℚ) :
    Enemy.hits_player ex ey size px py = true ↔
      ((ex - size/2 < px ∧ px < ex + size/2) ∧
       (ey - size/2 < py ∧ py < ey + size/2)) := by
  simp [Enemy.hits_player]

/-- Claim C4 (code bug at the failing input): invoking game_over_lose a
second time, as happens when two enemies hit the player in the same tick,
keeps the game halted but creates a second "You Lose" banner text item on
the canvas, contradicting the claim that no second banner is rendered.
The same create_text call is unconditional in game_over_win as well. -/
theorem game_over_double_invocation_draws_second_banner :
    (TAGame.game_over_lose (TAGame.game_over_lose gC4)).running = false ∧
    (TAGame.game_over_lose (TAGame.game_over_lose gC4)).banners
      = ["You Lose", "You Lose"] ∧
    (TAGame.game_over_win (TAGame.game_over_win gC4)).banners
      = ["You Win", "You Win"] :=
  ⟨rfl, rfl, rfl⟩

/-- Claim C8 counterexample: in state move_home the source overwrites
home with the thief's position and only then moves the thief, so after
the tick home holds the thief's pre-move position, not its current one:
from tC8 at (10, 10) with velocities (4, 4), home ends at (10, 10) while
the thief ends at (14, 14). -/
theorem move_home_post_tick_positions_differ_cex :
    ¬ ((ThiefEnemy.move_home 800 600 0 tC8 homeW).2.x
         = (ThiefEnemy.move_home 800 600 0 tC8 homeW).1.x ∧
       (ThiefEnemy.move_home 800 600 0 tC8 homeW).2.y
         = (ThiefEnemy.move_home 800 600 0 tC8 homeW).1.y) := by
  norm_num [ThiefEnemy.move_home, tC8, homeW]

/-- Claim C8 (amended): in both carrying states the thief first
overwrites home's position with its own and then moves, so after every
move_home or place_home tick home's position equals the thief's position
at the start of that tick (its pre-move position), lagging the thief's
new position by one step. -/
theorem carry_states_overwrite_home_with_premove_position
    (sq : ℚ → ℚ) (width height now : ℚ) (t : Thief) (home : Home) :
    ((ThiefEnemy.move_home width height now t home).2.x = t.x ∧
     (ThiefEnemy.move_home width height now t home).2.y = t.y) ∧
    ((ThiefEnemy.place_home sq now t home).2.x = t.x ∧
     (ThiefEnemy.place_home sq now t home).2.y = t.y) := by
  refine ⟨⟨?_, ?_⟩, ?_, ?_⟩ <;>
    (first
      | (simp only [ThiefEnemy.move_home]; split_ifs <;> rfl)
      | (simp only [ThiefEnemy.place_home]; split_ifs <;> rfl))

/-- Scaffolding for C10: move_random never changes the home_x/home_y
snapshot. -/
theorem move_random_preserves_snapshot (width height now : ℚ) (t : Thief) :
    (ThiefEnemy.move_random width height now t).home_x = t.home_x ∧
    (ThiefEnemy.move_random width height now t).home_y = t.home_y := by
  simp only [ThiefEnemy.move_random]
  split_ifs <;> exact ⟨rfl, rfl⟩

/-- Scaffolding for C10: find_home never changes the home_x/home_y
snapshot. -/
theorem find_home_preserves_snapshot (sq : ℚ → ℚ) (now : ℚ) (home : Home)
    (t t1 : Thief) (h : ThiefEnemy.find_home sq now home t = some t1) :
    t1.home_x = t.home_x ∧ t1.home_y = t.home_y := by
  simp only [ThiefEnemy.find_home] at h
  split_ifs at h <;> simp only [Option.some.injEq] at h <;>
    (subst h; exact ⟨rfl, rfl⟩)

/-- Scaffolding for C10: move_home never changes the home_x/home_y
snapshot. -/
theorem move_home_preserves_snapshot (width height now : ℚ) (t : Thief)
    (home : Home) :
    (ThiefEnemy.move_home width height now t home).1.home_x = t.home_x ∧
    (ThiefEnemy.move_home width height now t home).1.home_y = t.home_y := by
  simp only [ThiefEnemy.move_home]
  split_ifs <;> exact ⟨rfl, rfl⟩

/-- Scaffolding for C10: place_home never changes the home_x/home_y
snapshot. -/
theorem place_home_preserves_snapshot (sq : ℚ → ℚ) (now : ℚ) (t t1 : Thief)
    (home : Home) (h : (ThiefEnemy.place_home sq now t home).1 = some t1) :
    t1.home_x = t.home_x ∧ t1.home_y = t.home_y := by
  simp only [ThiefEnemy.place_home] at h
  split_ifs at h <;> simp only [Option.some.injEq] at h <;>
    (subst h; exact ⟨rfl, rfl⟩)

/-- Claim C10: a thief records home's position once at construction into
home_x/home_y, and no update in any of its four states ever changes that
recorded pair afterwards: whenever an update completes with a new thief
state, the snapshot is unchanged, so place_home (which steers toward and
tests arrival against home_x/home_y) returns home to where it was when
this thief spawned, even if home has moved since. -/
theorem thief_home_snapshot_recorded_and_immutable :
    (∀ (home : Home) (size now x y : ℚ),
        (ThiefEnemy.init home size now x y).home_x = home.x ∧
        (ThiefEnemy.init home size now x y).home_y = home.y) ∧
    (∀ (sq : ℚ → ℚ) (width height now : ℚ) (t : Thief) (home : Home)
        (px py : ℚ) (t1 : Thief),
        (ThiefEnemy.update sq width height now t home px py).1.1 = some t1 →
        t1.home_x = t.home_x ∧ t1.home_y = t.home_y) := by
  refine ⟨fun home size now x y => ⟨rfl, rfl⟩, ?_⟩
  intro sq width height now t home px py t1 h
  simp only [ThiefEnemy.update] at h
  cases hst : t.state <;> rw [hst] at h
  case move_random =>
    simp only [Option.some.injEq] at h
    subst h
    exact move_random_preserves_snapshot width height now t
  case find_home =>
    rcases hf : ThiefEnemy.find_home sq now home t with _ | t2 <;> rw [hf] at h
    · simp at h
    · simp only [Option.some.injEq] at h
      subst h
      exact find_home_preserves_snapshot sq now home t t2 hf
  case move_home =>
    simp only [Option.some.injEq] at h
    subst h
    exact move_home_preserves_snapshot width height now t home
  case place_home =>
    rcases hp : ThiefEnemy.place_home sq now t home with ⟨o, home1⟩
    rw [hp] at h
    rcases o with _ | t2
    · simp at h
    · simp only [Option.some.injEq] at h
      subst h
      exact place_home_preserves_snapshot sq now t t2 home (by rw [hp])

/-- Witness for C10: at a concrete thief in state move_random the update
completes, and the theorem applies to its result. -/
theorem thief_home_snapshot_recorded_and_immutable_witness :
    (ThiefEnemy.update sqw 800 600 0 tW homeW 400 300).1.1
      = some (ThiefEnemy.move_random 800 600 0 tW) ∧
    ((ThiefEnemy.move_random 800 600 0 tW).home_x = tW.home_x ∧
     (ThiefEnemy.move_random 800 600 0 tW).home_y = tW.home_y) :=
  ⟨rfl, thief_home_snapshot_recorded_and_immutable.2 sqw 800 600 0 tW homeW
      400 300 (ThiefEnemy.move_random 800 600 0 tW) rfl⟩

/-- Claim C7: a fencing enemy starts in move_down, and every dispatch
step either keeps the current state or moves to its unique successor in
the fixed cycle move_down, move_right, move_up, move_left (so it never
reverses), and the transition to the successor happens exactly when the
state's boundary coordinate is crossed by the post-move position. -/
theorem fencing_state_cycle_order :
    (∀ (home : Home) (size x y x_left y_up : ℚ),
        (FencingEnemy.init home size x y x_left y_up).state
          = FState.move_down) ∧
    (∀ f : Fencing,
        ((FencingEnemy.stepState f).state = f.state ∨
         (FencingEnemy.stepState f).state = FState.next f.state) ∧
        ((FencingEnemy.stepState f).state = FState.next f.state ↔
          FencingEnemy.boundaryCrossed f)) := by
  refine ⟨fun home size x y xl yu => rfl, ?_⟩
  intro f
  rcases f with ⟨x, y, size, speed, xl, xr, yu, yd, st⟩
  cases st <;>
    simp only [FencingEnemy.stepState, FencingEnemy.move_down,
      FencingEnemy.move_right, FencingEnemy.move_up, FencingEnemy.move_left,
      FencingEnemy.boundaryCrossed, FState.next] <;>
    split_ifs with hb <;> simp_all

/-- Claim C3 (code bug at the failing input): in every normalize-and-step
pursuit of the source - ChasingEnemy.update, ThiefEnemy.find_home and
ThiefEnemy.place_home - a pursuer exactly on its target makes distance 0
and Python's division by distance raise ZeroDivisionError, so the update
does not complete (none) instead of completing with zero displacement as
the claim requires. -/
theorem zero_distance_pursuit_faults (sq : ℚ → ℚ) (h0 : sq 0 = 0)
    (px py now : ℚ) (c : Chasing) (t u : Thief) (home : Home)
    (hc : px = c.x ∧ py = c.y)
    (ht : t.x = home.x ∧ t.y = home.y)
    (hu : u.x = u.home_x ∧ u.y = u.home_y) :
    ChasingEnemy.update sq px py c = none ∧
    ThiefEnemy.find_home sq now home t = none ∧
    (ThiefEnemy.place_home sq now u home).1 = none := by
  obtain ⟨hc1, hc2⟩ := hc
  obtain ⟨ht1, ht2⟩ := ht
  obtain ⟨hu1, hu2⟩ := hu
  refine ⟨?_, ?_, ?_⟩
  · simp only [ChasingEnemy.update, hc1, hc2, sub_self]
    norm_num [h0]
  · simp only [ThiefEnemy.find_home, ht1, ht2, sub_self]
    norm_num [h0]
  · simp only [ThiefEnemy.place_home, hu1, hu2, sub_self]
    norm_num [h0]

/-- Witness for C3: concrete pursuers sitting exactly on their targets
make all three updates fault. -/
theorem zero_distance_pursuit_faults_witness :
    sqw 0 = 0 ∧
    (ChasingEnemy.update sqw 400 300 cW = none ∧
     ThiefEnemy.find_home sqw 0 homeW tW3 = none ∧
     (ThiefEnemy.place_home sqw 0 uW3 homeW).1 = none) :=
  ⟨by norm_num [sqw],
   zero_distance_pursuit_faults sqw (by norm_num [sqw]) 400 300 0 cW tW3 uW3
     homeW (by norm_num [cW]) (by norm_num [tW3, homeW]) (by norm_num [uW3])⟩

/-- Claim C9: in RandomWalkEnemy.update, and in ThiefEnemy.move_random
when the 6.5-second timer has not elapsed, each axis's velocity magnitude
is unchanged by the tick, and (for a nonzero velocity) the velocity is
negated exactly when the post-step position on that axis is below 0 or
beyond the surface extent. -/
theorem elastic_bounce_sign_flip_iff (width height px py now : ℚ)
    (r : RandomWalk) (t : Thief)
    (hrx : r.speed_x ≠ 0) (hry : r.speed_y ≠ 0)
    (htx : t.speed_x ≠ 0) (hty : t.speed_y ≠ 0)
    (htimer : ¬ ((now - t.start_time) / 1000000000 > 13/2)) :
    ((|((RandomWalkEnemy.update width height px py r).1).speed_x|
        = |r.speed_x| ∧
      |((RandomWalkEnemy.update width height px py r).1).speed_y|
        = |r.speed_y|) ∧
     (((RandomWalkEnemy.update width height px py r).1).speed_x
        = -r.speed_x ↔ (r.x + r.speed_x < 0 ∨ r.x + r.speed_x > width)) ∧
     (((RandomWalkEnemy.update width height px py r).1).speed_y
        = -r.speed_y ↔ (r.y + r.speed_y < 0 ∨ r.y + r.speed_y > height))) ∧
    ((|(ThiefEnemy.move_random width height now t).speed_x|
        = |t.speed_x| ∧
      |(ThiefEnemy.move_random width height now t).speed_y|
        = |t.speed_y|) ∧
     ((ThiefEnemy.move_random width height now t).speed_x
        = -t.speed_x ↔ (t.x + t.speed_x < 0 ∨ t.x + t.speed_x > width)) ∧
     ((ThiefEnemy.move_random width height now t).speed_y
        = -t.speed_y ↔ (t.y + t.speed_y < 0 ∨ t.y + t.speed_y > height))) := by
  simp only [RandomWalkEnemy.update, ThiefEnemy.move_random, if_neg htimer]
  refine ⟨⟨⟨?_, ?_⟩, ?_, ?_⟩, ⟨?_, ?_⟩, ?_, ?_⟩ <;>
    split_ifs with hcond <;>
    simp_all [abs_neg, CharZero.eq_neg_self_iff]

/-- Witness for C9: a concrete random-walk enemy with nonzero velocity,
staying inside an 800 by 600 surface, does not flip its x velocity. -/
theorem elastic_bounce_sign_flip_iff_witness :
    rW.speed_x ≠ 0 ∧
    (((RandomWalkEnemy.update 800 600 400 300 rW).1).speed_x = -rW.speed_x ↔
      (rW.x + rW.speed_x < 0 ∨ rW.x + rW.speed_x > 800)) :=
  ⟨by norm_num [rW],
   (elastic_bounce_sign_flip_iff 800 600 400 300 0 rW tW9
      (by norm_num [rW]) (by norm_num [rW]) (by norm_num [tW9])
      (by norm_num [tW9]) (by norm_num [tW9])).1.2.1⟩

/-- Scaffolding: the waypoint block never changes the running flag. -/
theorem waypointMove_running (sq : ℚ → ℚ) (g1 : TAGame) :
    (Player.waypointMove sq g1).running = g1.running := by
  simp only [Player.waypointMove]
  split_ifs <;> rfl

/-- Scaffolding: the waypoint block never changes the banner list. -/
theorem waypointMove_banners (sq : ℚ → ℚ) (g1 : TAGame) :
    (Player.waypointMove sq g1).banners = g1.banners := by
  simp only [Player.waypointMove]
  split_ifs <;> rfl

/-- Scaffolding: with an inactive waypoint the waypoint block is the
identity. -/
theorem waypointMove_inactive (sq : ℚ → ℚ) (g1 : TAGame)
    (h : g1.waypoint.active = false) :
    Player.waypointMove sq g1 = g1 := by
  simp [Player.waypointMove, h]

/-- Claim C1 counterexample: in gC1 home contains the player and the
waypoint is active; Player.update raises the win signal but still moves
the player from (0, 0) to (5, 0), so the position after the update
differs from the position before it. -/
theorem player_update_moves_after_home_hit_cex :
    Home.contains gC1.home gC1.player.x gC1.player.y = true ∧
    gC1.waypoint.active = true ∧
    (Player.update sqw gC1).player.x ≠ gC1.player.x := by
  refine ⟨by norm_num [Home.contains, gC1], by norm_num [gC1], ?_⟩
  norm_num [Player.update, Player.waypointMove, Home.contains, sqw,
    TAGame.game_over_win, Game.stop, gC1]

/-- Claim C1 (amended): when home contains the player at the start of the
tick, Player.update raises the win signal - the game stops running and a
"You Win" banner is appended - but the win check has no early return, so
the player's position is guaranteed unchanged only when the waypoint is
inactive; with an active waypoint the normal waypoint move still applies
this tick. -/
theorem player_update_home_hit_signals_win (sq : ℚ → ℚ) (g : TAGame)
    (hin : Home.contains g.home g.player.x g.player.y = true) :
    ((Player.update sq g).running = false ∧
     (Player.update sq g).banners = g.banners ++ ["You Win"]) ∧
    (g.waypoint.active = false →
      (Player.update sq g).player = g.player) := by
  unfold Player.update
  rw [if_pos hin]
  refine ⟨⟨?_, ?_⟩, ?_⟩
  · rw [waypointMove_running]; rfl
  · rw [waypointMove_banners]; rfl
  · intro hact
    rw [waypointMove_inactive sq (TAGame.game_over_win g) hact]
    rfl

/-- Witness for C1: a concrete game whose player sits inside home with an
inactive waypoint. -/
theorem player_update_home_hit_signals_win_witness :
    Home.contains gC1w.home gC1w.player.x gC1w.player.y = true ∧
    (((Player.update sqw gC1w).running = false ∧
      (Player.update sqw gC1w).banners = gC1w.banners ++ ["You Win"]) ∧
     (gC1w.waypoint.active = false →
       (Player.update sqw gC1w).player = gC1w.player)) :=
  ⟨by norm_num [Home.contains, gC1w],
   player_update_home_hit_signals_win sqw gC1w
     (by norm_num [Home.contains, gC1w])⟩

/-- Claim C2 counterexample: in gC2 the active waypoint lies at pre-move
distance exactly speed (5), so the claimed pre-move rule would keep the
waypoint active, yet the source deactivates it: the distance it compares
to speed is measured after the move, and here the post-move distance is
0. -/
theorem waypoint_deactivation_pre_distance_cex :
    (Player.update sqw gC2).waypoint.active = false ∧
    ¬ (sqw ((gC2.waypoint.x - gC2.player.x)^2 +
            (gC2.waypoint.y - gC2.player.y)^2)
         < gC2.player.speed) := by
  constructor
  · norm_num [Player.update, Player.waypointMove, Home.contains, sqw,
      TAGame.game_over_win, Game.stop, gC2]
  · norm_num [sqw, gC2]

/-- Scaffolding for C2: through the waypoint block, the waypoint ends up
deactivated exactly when the pre-move distance d lies strictly between 0
and twice the speed, because the compared post-move distance equals the
absolute difference of d and the speed. -/
theorem waypointMove_deactivation_iff (sq : ℚ → ℚ) (g1 : TAGame) (d : ℚ)
    (hact : g1.waypoint.active = true)
    (hs : 0 < g1.player.speed)
    (hd : sq ((g1.waypoint.x - g1.player.x)^2 +
              (g1.waypoint.y - g1.player.y)^2) = d)
    (hdsq : d * d = (g1.waypoint.x - g1.player.x)^2 +
                    (g1.waypoint.y - g1.player.y)^2)
    (hpost : sq ((d - g1.player.speed)^2) = |d - g1.player.speed|) :
    ((Player.waypointMove sq g1).waypoint.active = false ↔
      (0 < d ∧ d < 2 * g1.player.speed)) := by
  simp only [Player.waypointMove, hact, if_true]
  rw [hd]
  by_cases hd0 : d = 0
  · simp only [if_pos hd0]
    have hsum : (g1.waypoint.x - g1.player.x)^2 +
        (g1.waypoint.y - g1.player.y)^2 = 0 := by
      rw [← hdsq, hd0]; ring
    have hdx : g1.waypoint.x - g1.player.x = 0 := by
      nlinarith [sq_nonneg (g1.waypoint.x - g1.player.x),
        sq_nonneg (g1.waypoint.y - g1.player.y)]
    have hdy : g1.waypoint.y - g1.player.y = 0 := by
      nlinarith [sq_nonneg (g1.waypoint.x - g1.player.x),
        sq_nonneg (g1.waypoint.y - g1.player.y)]
    have harg : (g1.waypoint.x - (g1.player.x + g1.player.speed))^2 +
        (g1.waypoint.y - g1.player.y)^2 = (d - g1.player.speed)^2 := by
      have h1 : g1.waypoint.x = g1.player.x := by linarith
      have h2 : g1.waypoint.y = g1.player.y := by linarith
      rw [h1, h2, hd0]; ring
    have habs : |d - g1.player.speed| = g1.player.speed := by
      rw [hd0, zero_sub, abs_neg, abs_of_pos hs]
    rw [harg, hpost, habs, if_neg (lt_irrefl g1.player.speed)]
    refine ⟨fun hfalse => absurd (hfalse.symm.trans hact) Bool.false_ne_true,
      fun hcond => by rw [hd0] at hcond; exact absurd hcond.1 (lt_irrefl 0)⟩
  · simp only [if_neg hd0]
    have expand : (g1.waypoint.x - (g1.player.x +
          (g1.waypoint.x - g1.player.x) / d * g1.player.speed))^2 +
        (g1.waypoint.y - (g1.player.y +
          (g1.waypoint.y - g1.player.y) / d * g1.player.speed))^2
        = ((g1.waypoint.x - g1.player.x)^2 + (g1.waypoint.y - g1.player.y)^2)
            * ((d - g1.player.speed) / d)^2 := by
      field_simp
      ring
    have harg : (g1.waypoint.x - (g1.player.x +
          (g1.waypoint.x - g1.player.x) / d * g1.player.speed))^2 +
        (g1.waypoint.y - (g1.player.y +
          (g1.waypoint.y - g1.player.y) / d * g1.player.speed))^2
        = (d - g1.player.speed)^2 := by
      rw [expand, ← hdsq]
      field_simp
      ring
    rw [harg, hpost]
    by_cases hlt : |d - g1.player.speed| < g1.player.speed
    · rw [if_pos hlt]
      obtain ⟨hl1, hl2⟩ := abs_lt.mp hlt
      exact ⟨fun _ => ⟨by linarith, by linarith⟩, fun _ => rfl⟩
    · rw [if_neg hlt]
      refine ⟨fun hfalse => absurd (hfalse.symm.trans hact) Bool.false_ne_true,
        fun hcond => absurd
          (abs_lt.mpr ⟨by linarith [hcond.1], by linarith [hcond.2]⟩) hlt⟩

/-- Claim C2 (amended): in a tick with an active waypoint, Player.update
deactivates the waypoint if and only if the distance measured after the
move is strictly less than the speed; in terms of the pre-move distance d
this holds exactly when 0 < d < 2 * speed, not when d < speed: turtle
.distance is read after turtle.forward in the source.  The waypoint is
never reactivated by the player.  (d is the pre-move distance: it
squares to the squared displacement to the waypoint.) -/
theorem waypoint_deactivation_iff_post_move_distance (sq : ℚ → ℚ)
    (g : TAGame) (d : ℚ)
    (hact : g.waypoint.active = true)
    (hs : 0 < g.player.speed)
    (hd : sq ((g.waypoint.x - g.player.x)^2 +
              (g.waypoint.y - g.player.y)^2) = d)
    (hdsq : d * d = (g.waypoint.x - g.player.x)^2 +
                    (g.waypoint.y - g.player.y)^2)
    (hpost : sq ((d - g.player.speed)^2) = |d - g.player.speed|) :
    ((Player.update sq g).waypoint.active = false ↔
      (0 < d ∧ d < 2 * g.player.speed)) := by
  unfold Player.update
  by_cases hc : Home.contains g.home g.player.x g.player.y = true
  · rw [if_pos hc]
    exact waypointMove_deactivation_iff sq (TAGame.game_over_win g) d hact hs
      hd hdsq hpost
  · rw [if_neg hc]
    exact waypointMove_deactivation_iff sq g d hact hs hd hdsq hpost

/-- Witness for C2: a concrete game with the active waypoint at pre-move
distance 8 and speed 5; the deactivation happens and 0 < 8 < 10. -/
theorem waypoint_deactivation_iff_post_move_distance_witness :
    gC2w.waypoint.active = true ∧
    ((Player.update sqw gC2w).waypoint.active = false ↔
      (0 < (8:ℚ) ∧ (8:ℚ) < 2 * gC2w.player.speed)) :=
  ⟨by norm_num [gC2w],
   waypoint_deactivation_iff_post_move_distance sqw gC2w 8
     (by norm_num [gC2w]) (by norm_num [gC2w]) (by norm_num [sqw, gC2w])
     (by norm_num [gC2w]) (by norm_num [sqw, gC2w])⟩
